import Mathlib

/-!
Verification of the PD-calculator measurement core (pd-calculator repository).

Shallow embedding of the measurement core:
  * `app/measurements.py` — `PupilDetector` (`_calculate_iris_center`,
    `_calculate_face_width`, `_pixel_to_mm`, `calculate_measurement_quality`,
    `process_landmarks`);
  * `app/visualization.py` — `FaceAlignmentGuide` (`check_position_stability`,
    `draw_guide`);
  * `app/routes.py` — the per-frame aggregator state machine in
    `process_frame` with `STABILITY_THRESHOLD = 30`, `MEASUREMENT_FRAMES = 10`.

Python floats are modelled as rationals (ℚ); a Python exception that escapes
a function is modelled as `Option.none` (the callers in the source catch all
exceptions); `np.sqrt` is modelled as an explicit function parameter
`sqrtFn : ℚ → ℚ`, since no verified property depends on its values.
Landmark sets are association lists from string keys to 2D points, mirroring
the `landmarks[str(idx)]` dictionary access of the source (a missing key
raises `KeyError`, modelled as `none`).
-/

namespace PD

/-- A 2D landmark point: the `point['x']`, `point['y']` fields of the source. -/
structure Point where
  x : ℚ
  y : ℚ
  deriving Repr, DecidableEq

/-- A landmark set: mapping from string landmark index to point,
modelled as an association list (`landmarks[str(idx)]` in the source). -/
def Landmarks : Type := List (String × Point)

/-- Dictionary lookup `landmarks[k]`; `none` models a `KeyError`. -/
def lookupLm (lms : Landmarks) (k : String) : Option Point :=
  List.lookup k lms

/-- `PupilMeasurement` dataclass of `app/measurements.py`. -/
structure PupilMeasurement where
  left_pupil : Point
  right_pupil : Point
  pd_pixels : ℚ
  pd_mm : ℚ
  confidence : ℚ
  deriving Repr, DecidableEq

/-- `self.AVERAGE_FACE_WIDTH_MM = 145.0` (`PupilDetector.__init__`). -/
def AVERAGE_FACE_WIDTH_MM : ℚ := 145

/-- `self.PD_CALIBRATION_FACTOR = 0.943` (`PupilDetector.__init__`). -/
def PD_CALIBRATION_FACTOR : ℚ := 943 / 1000

/-- `self.LEFT_IRIS = [474, 475, 476, 477]`. -/
def LEFT_IRIS : List String := ["474", "475", "476", "477"]

/-- `self.RIGHT_IRIS = [469, 470, 471, 472]`. -/
def RIGHT_IRIS : List String := ["469", "470", "471", "472"]

/-- `PupilDetector._calculate_iris_center`: centroid of the four iris
landmarks; `none` models the `KeyError` raised when an index is absent. -/
def calculateIrisCenter (lms : Landmarks) (irisIndices : List String) :
    Option Point := do
  let pts ← irisIndices.mapM (lookupLm lms)
  if pts.length = 0 then none
  else
    some ⟨(pts.map Point.x).sum / pts.length, (pts.map Point.y).sum / pts.length⟩

/-- `PupilDetector._calculate_face_width`: absolute horizontal distance
between temple landmarks `127` and `356`; `none` models the `KeyError`
raised when a temple index is absent. -/
def calculateFaceWidth (lms : Landmarks) : Option ℚ :=
  match lookupLm lms "127", lookupLm lms "356" with
  | some leftTemple, some rightTemple => some |rightTemple.x - leftTemple.x|
  | _, _ => none

/-- `PupilDetector._pixel_to_mm`: `pixel_distance * (145.0 / face_width) * 0.943`.
`none` models the `ZeroDivisionError` Python raises when `face_width_pixels`
is exactly zero; any other width (including a negative one) is divided
through unchecked, exactly as in the source. -/
def pixelToMm (pixel_distance face_width_pixels : ℚ) : Option ℚ :=
  if face_width_pixels = 0 then none
  else
    some (pixel_distance * (AVERAGE_FACE_WIDTH_MM / face_width_pixels)
          * PD_CALIBRATION_FACTOR)

/-- Python `round(q, 2)` on a nonnegative value: round half to even at two
decimal places (banker's rounding, as Python's `round` performs). -/
def round2 (q : ℚ) : ℚ :=
  let s : ℚ := q * 100
  let f : ℤ := ⌊s⌋
  let r : ℚ := s - f
  let n : ℤ :=
    if r < 1/2 then f
    else if 1/2 < r then f + 1
    else if f % 2 = 0 then f else f + 1
  (n : ℚ) / 100

/-- `PupilDetector.calculate_measurement_quality`: the weighted
orientation / eye-openness / gaze score.  The `try/except` of the source
returns `0.0` when any required landmark key is missing (the only fault
reachable in the model). -/
def calculateMeasurementQuality (lms : Landmarks)
    (left_center right_center : Point) : ℚ :=
  match lookupLm lms "4", lookupLm lms "386", lookupLm lms "374",
        lookupLm lms "159", lookupLm lms "145" with
  | some noseTip, some l386, some l374, some r159, some r145 =>
      let face_orientation := |1/2 - noseTip.x|
      let left_eye_top := l386.y
      let left_eye_bottom := l374.y
      let right_eye_top := r159.y
      let right_eye_bottom := r145.y
      let eye_openness := min |left_eye_top - left_eye_bottom|
                              |right_eye_top - right_eye_bottom|
      let gaze_center := |1/2 - (left_center.x + right_center.x) / 2|
      let orientation_score := max 0 (1 - face_orientation * 4)
      let eye_score := min 1 (eye_openness * 10)
      let gaze_score := max 0 (1 - gaze_center * 4)
      let quality := orientation_score * (4/10) + eye_score * (3/10)
                     + gaze_score * (3/10)
      round2 (min 1 quality)
  | _, _, _, _, _ => 0

/-- `PupilDetector.process_landmarks`: iris centers, pixel PD, face width,
millimeter PD and quality, bundled into a `PupilMeasurement`.  The
`try/except` returning `None` is the `Option` chain; `np.sqrt` is the
parameter `sqrtFn`. -/
def processLandmarks (sqrtFn : ℚ → ℚ) (lms : Landmarks) :
    Option PupilMeasurement :=
  match calculateIrisCenter lms LEFT_IRIS, calculateIrisCenter lms RIGHT_IRIS with
  | some left_center, some right_center =>
    let pd_pixels := sqrtFn ((right_center.x - left_center.x) ^ 2 +
                             (right_center.y - left_center.y) ^ 2)
    match calculateFaceWidth lms with
    | some face_width_pixels =>
      match pixelToMm pd_pixels face_width_pixels with
      | some pd_mm =>
        some ⟨left_center, right_center, pd_pixels, pd_mm,
              calculateMeasurementQuality lms left_center right_center⟩
      | none => none
    | none => none
  | _, _ => none

/-! ### `FaceAlignmentGuide` (`app/visualization.py`)

The guide's per-frame state is its rolling `position_history` list.
Frame geometry is parameterised by the constructor arguments
`frame_width`/`frame_height`.  Only the alignment logic is modelled; the
OpenCV drawing calls have no effect on the returned status or state. -/

/-- `int(frame_width * 0.25)` (`face_width_ratio = 0.25`): for any frame
width the float product is exact, so truncation is `⌊w/4⌋ = w / 4`. -/
def ovalWidth (frame_width : ℕ) : ℕ := frame_width / 4

/-- `self.center_x = frame_width // 2`. -/
def centerX (frame_width : ℕ) : ℕ := frame_width / 2

/-- `self.center_y = frame_height // 2`. -/
def centerY (frame_height : ℕ) : ℕ := frame_height / 2

/-- `self.position_tolerance = 0.05`. -/
def position_tolerance : ℚ := 1 / 20

/-- `self.size_tolerance = 0.15`. -/
def size_tolerance : ℚ := 3 / 20

/-- `self.history_size = 5`. -/
def history_size : ℕ := 5

/-- Minimum of a list of rationals (`np.min`); 0 on the empty list, which
the source never reaches (empty arrays raise, handled separately). -/
def listMinQ : List ℚ → ℚ
  | [] => 0
  | x :: xs => xs.foldl min x

/-- Maximum of a list of rationals (`np.max`); 0 on the empty list. -/
def listMaxQ : List ℚ → ℚ
  | [] => 0
  | x :: xs => xs.foldl max x

/-- `coords = np.array([[landmark.x * frame_width, landmark.y * frame_height] ...])`. -/
def pixelCoords (w h : ℕ) (lms : List Point) : List (ℚ × ℚ) :=
  lms.map fun p => (p.x * w, p.y * h)

/-- `face_width = np.max(coords[:,0]) - np.min(coords[:,0])`. -/
def faceWidthPx (w h : ℕ) (lms : List Point) : ℚ :=
  listMaxQ ((pixelCoords w h lms).map Prod.fst)
    - listMinQ ((pixelCoords w h lms).map Prod.fst)

/-- `face_center = [(face_left + face_right) / 2, (face_top + face_bottom) / 2]`. -/
def faceCenterPx (w h : ℕ) (lms : List Point) : ℚ × ℚ :=
  ((listMinQ ((pixelCoords w h lms).map Prod.fst)
      + listMaxQ ((pixelCoords w h lms).map Prod.fst)) / 2,
   (listMinQ ((pixelCoords w h lms).map Prod.snd)
      + listMaxQ ((pixelCoords w h lms).map Prod.snd)) / 2)

/-- `x_offset = abs(face_center[0] - self.center_x) / self.frame_width`. -/
def xOffset (w h : ℕ) (lms : List Point) : ℚ :=
  |(faceCenterPx w h lms).1 - centerX w| / w

/-- `y_offset = abs(face_center[1] - self.center_y) / self.frame_height`. -/
def yOffset (w h : ℕ) (lms : List Point) : ℚ :=
  |(faceCenterPx w h lms).2 - centerY h| / h

/-- `width_diff = abs(face_width - self.oval_width) / self.oval_width`. -/
def widthDiff (w h : ℕ) (lms : List Point) : ℚ :=
  |faceWidthPx w h lms - ovalWidth w| / ovalWidth w

/-- `FaceAlignmentGuide.check_position_stability`: pop the oldest entry when
the window is full, append the new center, report unstable while the window
is not yet full, otherwise compare the x/y spreads against 3% of the frame
dimensions.  Returns the stability verdict and the updated history. -/
def checkPositionStability (w h : ℕ) (hist : List (ℚ × ℚ))
    (face_center : ℚ × ℚ) : Bool × List (ℚ × ℚ) :=
  let hist0 := if history_size ≤ hist.length then hist.tail else hist
  let hist1 := hist0 ++ [face_center]
  if hist1.length < history_size then (false, hist1)
  else
    let x_variance := listMaxQ (hist1.map Prod.fst) - listMinQ (hist1.map Prod.fst)
    let y_variance := listMaxQ (hist1.map Prod.snd) - listMinQ (hist1.map Prod.snd)
    (decide (x_variance < w * (3/100) ∧ y_variance < h * (3/100)), hist1)

/-- `FaceAlignmentGuide.draw_guide`: returns `(aligned, message)` and the
updated position history.  `none` landmarks is the `face_landmarks is None`
branch (history cleared).  An empty landmark list, or a zero `oval_width`
(frame width < 4, where the tolerance division raises `ZeroDivisionError`),
lands in the `except` branch: `(False, "Error in alignment")`, history
unchanged. -/
def drawGuide (w h : ℕ) (hist : List (ℚ × ℚ)) :
    Option (List Point) → (Bool × String) × List (ℚ × ℚ)
  | none => ((false, "No face detected"), [])
  | some lms =>
    if lms = [] ∨ ovalWidth w = 0 then ((false, "Error in alignment"), hist)
    else if size_tolerance < widthDiff w h lms then
      if faceWidthPx w h lms < ovalWidth w then ((false, "Move closer"), hist)
      else ((false, "Move back"), hist)
    else if position_tolerance < xOffset w h lms
            ∨ position_tolerance < yOffset w h lms then
      ((false, "Center your face"), hist)
    else
      let res := checkPositionStability w h hist (faceCenterPx w h lms)
      if res.1 then ((true, "Perfect"), res.2)
      else ((false, "Hold still"), res.2)

/-- Feed a sequence of frames through `draw_guide`, collecting the per-frame
`(aligned, message)` results and threading the position history. -/
def runGuide (w h : ℕ) (hist : List (ℚ × ℚ)) :
    List (Option (List Point)) → List (Bool × String) × List (ℚ × ℚ)
  | [] => ([], hist)
  | f :: fs =>
    let r := drawGuide w h hist f
    let rest := runGuide w h r.2 fs
    (r.1 :: rest.1, rest.2)

/-! ### Measurement aggregator (`app/routes.py`, `process_frame`)

The aggregator's session state is the module-level globals
`stable_frame_count`, `is_measuring`, `measurement_buffer`,
`last_measurement`.  A frame is abstracted to whether a face was detected,
whether the alignment guide reported it aligned, and the candidate
measurement `detector.detect_pupils` produced (already carrying the
recomputed quality in its `confidence` field, as assigned before the
append); `none` models a frame where no valid measurement was obtained. -/

/-- `STABILITY_THRESHOLD = 30`. -/
def STABILITY_THRESHOLD : ℕ := 30

/-- `MEASUREMENT_FRAMES = 10`. -/
def MEASUREMENT_FRAMES : ℕ := 10

/-- The global aggregator state mutated by `process_frame`. -/
structure AggState where
  stable_frame_count : ℕ
  is_measuring : Bool
  measurement_buffer : List PupilMeasurement
  last_measurement : Option PupilMeasurement
  deriving Repr, DecidableEq

/-- Initial state: counters zero, not measuring, empty buffer, no result. -/
def initAggState : AggState := ⟨0, false, [], none⟩

/-- One frame as seen by `process_frame`. -/
inductive FrameInput where
  | noFace
  | face (aligned : Bool) (candidate : Option PupilMeasurement)
  deriving Repr, DecidableEq

/-- The state update performed by one call of `process_frame`:
increment or reset the stable-frame counter, enter measuring mode at the
threshold (clearing the buffer), append a valid candidate while measuring,
and emit the averaged final measurement when the buffer reaches
`MEASUREMENT_FRAMES` (taking pupils and `pd_pixels` from the current,
i.e. last-appended, measurement). -/
def processFrameStep (s : AggState) (f : FrameInput) : AggState :=
  match f with
  | .noFace => { s with stable_frame_count := 0 }
  | .face aligned candidate =>
    let s1 :=
      if aligned then
        let s1a := { s with stable_frame_count := s.stable_frame_count + 1 }
        if STABILITY_THRESHOLD ≤ s1a.stable_frame_count ∧ s1a.is_measuring = false then
          { s1a with is_measuring := true, measurement_buffer := [] }
        else s1a
      else { s with stable_frame_count := 0 }
    if s1.is_measuring then
      match candidate with
      | some m =>
        let buf := s1.measurement_buffer ++ [m]
        if MEASUREMENT_FRAMES ≤ buf.length then
          { s1 with
            measurement_buffer := buf
            is_measuring := false
            last_measurement := some
              { left_pupil := m.left_pupil
                right_pupil := m.right_pupil
                pd_pixels := m.pd_pixels
                pd_mm := (buf.map PupilMeasurement.pd_mm).sum / (buf.length : ℚ)
                confidence := (buf.map PupilMeasurement.confidence).sum / (buf.length : ℚ) } }
        else { s1 with measurement_buffer := buf }
      | none => s1
    else s1

/-- Feed a frame sequence through `process_frame` starting from a state. -/
def runAgg (s : AggState) (fs : List FrameInput) : AggState :=
  fs.foldl processFrameStep s

/-! ## Claim C1: the pixel-to-millimeter conversion formula -/

/-- C1: for every pixel distance `d` and positive face width `w`,
`_pixel_to_mm` returns exactly `d * (145.0 / w) * 0.943`; on the spec's
example inputs (`pd_pixels = 128`, face width `200`) the result is exactly
`54694/625 = 87.5104` mm (so ≈ 87.5 mm, not 87.4 mm as the spec's example
rounds it). -/
theorem C1_pixel_to_mm_formula (d w : ℚ) (hw : 0 < w) :
    pixelToMm d w = some (d * (145 / w) * (943 / 1000)) ∧
    pixelToMm 128 200 = some (54694 / 625) := by
  constructor
  · rw [pixelToMm, if_neg (ne_of_gt hw)]
    rfl
  · norm_num [pixelToMm, AVERAGE_FACE_WIDTH_MM, PD_CALIBRATION_FACTOR]

/-- Witness for C1 at the spec's example inputs. -/
theorem C1_pixel_to_mm_formula_witness :
    pixelToMm 128 200 = some (128 * (145 / 200) * (943 / 1000)) :=
  (C1_pixel_to_mm_formula 128 200 (by norm_num)).1

/-- C1 counterexample: on the spec's example the exact result is
`87.5104` mm, which is not within `0.05` of the claimed `87.4` mm (it
displays as `87.5` at the app's one-decimal precision). -/
theorem C1_counterexample :
    pixelToMm 128 200 = some (54694 / 625) ∧
    ¬ |(54694 / 625 : ℚ) - 874 / 10| ≤ 1 / 20 := by
  constructor
  · norm_num [pixelToMm, AVERAGE_FACE_WIDTH_MM, PD_CALIBRATION_FACTOR]
  · intro hcon
    rw [abs_le] at hcon
    norm_num at hcon

/-! ## Claim C3: behaviour of `_pixel_to_mm` on zero and negative widths -/

/-- C3 counterexample: a negative face width is not rejected or flagged —
`_pixel_to_mm 10 (-2)` succeeds and returns the silently wrong (negative)
value `-683.675`. -/
theorem C3_counterexample :
    pixelToMm 10 (-2) = some (-(27347 / 40)) ∧ pixelToMm 10 (-2) ≠ none := by
  constructor
  · norm_num [pixelToMm, AVERAGE_FACE_WIDTH_MM, PD_CALIBRATION_FACTOR]
  · simp [pixelToMm]

/-- C3 (amended): `_pixel_to_mm` fails only on an exactly-zero face width
(`ZeroDivisionError`, caught by its caller); a negative width is divided
through unchecked and yields the sign-flipped value. -/
theorem C3_zero_width_fails_negative_does_not (d w : ℚ) (hw : w < 0) :
    pixelToMm d 0 = none ∧
    pixelToMm d w = some (d * (145 / w) * (943 / 1000)) := by
  constructor
  · rw [pixelToMm, if_pos rfl]
  · rw [pixelToMm, if_neg (ne_of_lt hw)]
    rfl

/-- Witness for the amended C3 at `d = 10`, `w = -2`. -/
theorem C3_zero_width_fails_negative_does_not_witness :
    pixelToMm 10 0 = none ∧
    pixelToMm 10 (-2) = some (10 * (145 / (-2)) * (943 / 1000)) :=
  C3_zero_width_fails_negative_does_not 10 (-2) (by norm_num)

/-! ## Claims C4 and C7: the measurement-quality score -/

/-- Rounding a value of `[0,1]` to two decimals stays inside `[0,1]`. -/
theorem round2_bounds (x : ℚ) (h0 : 0 ≤ x) (h1 : x ≤ 1) :
    0 ≤ round2 x ∧ round2 x ≤ 1 := by
  have hs0 : (0 : ℚ) ≤ x * 100 := by linarith
  have hs1 : x * 100 ≤ 100 := by linarith
  have hf0 : (0 : ℤ) ≤ ⌊x * 100⌋ := Int.floor_nonneg.mpr hs0
  have hfle : ((⌊x * 100⌋ : ℤ) : ℚ) ≤ x * 100 := Int.floor_le _
  have hf100 : (⌊x * 100⌋ : ℤ) ≤ 100 := by
    have h : ((⌊x * 100⌋ : ℤ) : ℚ) ≤ 100 := le_trans hfle hs1
    exact_mod_cast h
  have hf100Q : ((⌊x * 100⌋ : ℤ) : ℚ) ≤ 100 := by exact_mod_cast hf100
  have hf0Q : (0 : ℚ) ≤ ((⌊x * 100⌋ : ℤ) : ℚ) := by exact_mod_cast hf0
  simp only [round2]
  split_ifs with hb1 hb2 hb3
  · constructor <;> [positivity; linarith]
  · have hlt : ((⌊x * 100⌋ : ℤ) : ℚ) < 100 := by linarith
    constructor
    · push_cast
      linarith
    · push_cast
      have : (⌊x * 100⌋ : ℤ) < 100 := by exact_mod_cast hlt
      have : ((⌊x * 100⌋ : ℤ) : ℚ) + 1 ≤ 100 := by
        have h99 : (⌊x * 100⌋ : ℤ) ≤ 99 := by omega
        have : ((⌊x * 100⌋ : ℤ) : ℚ) ≤ 99 := by exact_mod_cast h99
        linarith
      linarith
  · constructor <;> [positivity; linarith]
  · have hhalf : x * 100 - ((⌊x * 100⌋ : ℤ) : ℚ) = 1 / 2 := by
      push_neg at hb1 hb2
      linarith
    have hlt : ((⌊x * 100⌋ : ℤ) : ℚ) < 100 := by linarith
    constructor
    · push_cast
      linarith
    · push_cast
      have : (⌊x * 100⌋ : ℤ) < 100 := by exact_mod_cast hlt
      have h99 : (⌊x * 100⌋ : ℤ) ≤ 99 := by omega
      have : ((⌊x * 100⌋ : ℤ) : ℚ) ≤ 99 := by exact_mod_cast h99
      linarith

/-- When all five required landmarks are present, the quality score is the
rounded, clamped weighted sum, and that value lies in `[0,1]`. -/
theorem quality_bounds (lms : Landmarks) (lc rc : Point) :
    0 ≤ calculateMeasurementQuality lms lc rc ∧
    calculateMeasurementQuality lms lc rc ≤ 1 := by
  unfold calculateMeasurementQuality
  cases h4 : lookupLm lms "4" <;> cases h386 : lookupLm lms "386" <;>
    cases h374 : lookupLm lms "374" <;> cases h159 : lookupLm lms "159" <;>
    cases h145 : lookupLm lms "145" <;>
    simp only <;> try exact ⟨le_refl 0, zero_le_one⟩
  case some.some.some.some.some n4 l386 l374 r159 r145 =>
    set o := max 0 (1 - |1/2 - n4.x| * 4) with ho
    set e := min 1 (min |l386.y - l374.y| |r159.y - r145.y| * 10) with he
    set g := max 0 (1 - |1/2 - (lc.x + rc.x) / 2| * 4) with hg
    have ho0 : (0 : ℚ) ≤ o := le_max_left _ _
    have he0 : (0 : ℚ) ≤ e := by
      apply le_min zero_le_one
      positivity
    have hg0 : (0 : ℚ) ≤ g := le_max_left _ _
    have hq0 : (0 : ℚ) ≤ o * (4/10) + e * (3/10) + g * (3/10) := by positivity
    have hmin0 : (0 : ℚ) ≤ min 1 (o * (4/10) + e * (3/10) + g * (3/10)) :=
      le_min zero_le_one hq0
    have hmin1 : min 1 (o * (4/10) + e * (3/10) + g * (3/10)) ≤ 1 :=
      min_le_left _ _
    exact round2_bounds _ hmin0 hmin1

/-- A landmark set missing any of the five required quality landmarks
scores exactly `0`. -/
theorem quality_zero_of_missing (lms : Landmarks) (lc rc : Point)
    (hmiss : lookupLm lms "4" = none ∨ lookupLm lms "386" = none ∨
      lookupLm lms "374" = none ∨ lookupLm lms "159" = none ∨
      lookupLm lms "145" = none) :
    calculateMeasurementQuality lms lc rc = 0 := by
  unfold calculateMeasurementQuality
  rcases hmiss with h | h | h | h | h <;> rw [h] <;>
    cases lookupLm lms "4" <;> cases lookupLm lms "386" <;>
    cases lookupLm lms "374" <;> cases lookupLm lms "159" <;>
    cases lookupLm lms "145" <;> rfl

/-- C4: the quality score always lies in `[0,1]`, and any input with a
missing required landmark index (`4`, `386`, `374`, `159`, `145`) scores
exactly `0` (the `try/except` fail-closed path, never an exception). -/
theorem C4_quality_range_fail_closed (lms : Landmarks) (lc rc : Point) :
    (0 ≤ calculateMeasurementQuality lms lc rc ∧
     calculateMeasurementQuality lms lc rc ≤ 1) ∧
    ((lookupLm lms "4" = none ∨ lookupLm lms "386" = none ∨
      lookupLm lms "374" = none ∨ lookupLm lms "159" = none ∨
      lookupLm lms "145" = none) →
      calculateMeasurementQuality lms lc rc = 0) :=
  ⟨quality_bounds lms lc rc, quality_zero_of_missing lms lc rc⟩

/-- Witness for C4: on the empty landmark set the score is `0`, within
`[0,1]`. -/
theorem C4_quality_range_fail_closed_witness :
    (0 ≤ calculateMeasurementQuality [] ⟨0, 0⟩ ⟨0, 0⟩ ∧
     calculateMeasurementQuality [] ⟨0, 0⟩ ⟨0, 0⟩ ≤ 1) ∧
    calculateMeasurementQuality [] ⟨0, 0⟩ ⟨0, 0⟩ = 0 :=
  ⟨(C4_quality_range_fail_closed [] ⟨0, 0⟩ ⟨0, 0⟩).1,
   (C4_quality_range_fail_closed [] ⟨0, 0⟩ ⟨0, 0⟩).2 (Or.inl rfl)⟩

/-- C7: with all required landmarks present, the quality score is exactly
the weighted `0.4/0.3/0.3` combination of the orientation, eye-openness
(smaller eye gap dominates) and gaze sub-scores, clamped above by `1`
(each sub-score is already nonnegative) and rounded to two decimals. -/
theorem C7_quality_formula (lms : Landmarks) (lc rc : Point)
    (n4 l386 l374 r159 r145 : Point)
    (h4 : lookupLm lms "4" = some n4) (h386 : lookupLm lms "386" = some l386)
    (h374 : lookupLm lms "374" = some l374)
    (h159 : lookupLm lms "159" = some r159)
    (h145 : lookupLm lms "145" = some r145) :
    calculateMeasurementQuality lms lc rc =
      round2 (min 1 (max 0 (1 - |1/2 - n4.x| * 4) * (4/10)
        + min 1 (min |l386.y - l374.y| |r159.y - r145.y| * 10) * (3/10)
        + max 0 (1 - |1/2 - (lc.x + rc.x) / 2| * 4) * (3/10))) := by
  unfold calculateMeasurementQuality
  rw [h4, h386, h374, h159, h145]

/-- Witness for C7 on a concrete, fully populated landmark set. -/
theorem C7_quality_formula_witness :
    calculateMeasurementQuality
      [("4", ⟨1/2, 0⟩), ("386", ⟨0, 3/10⟩), ("374", ⟨0, 7/20⟩),
       ("159", ⟨0, 3/10⟩), ("145", ⟨0, 19/50⟩)] ⟨9/20, 0⟩ ⟨11/20, 0⟩ =
      round2 (min 1 (max 0 (1 - |1/2 - (1/2 : ℚ)| * 4) * (4/10)
        + min 1 (min |(3/10 : ℚ) - 7/20| |(3/10 : ℚ) - 19/50| * 10) * (3/10)
        + max 0 (1 - |1/2 - ((9/20 : ℚ) + 11/20) / 2| * 4) * (3/10))) :=
  C7_quality_formula
    [("4", ⟨1/2, 0⟩), ("386", ⟨0, 3/10⟩), ("374", ⟨0, 7/20⟩),
     ("159", ⟨0, 3/10⟩), ("145", ⟨0, 19/50⟩)]
    ⟨9/20, 0⟩ ⟨11/20, 0⟩ ⟨1/2, 0⟩ ⟨0, 3/10⟩ ⟨0, 7/20⟩ ⟨0, 3/10⟩ ⟨0, 19/50⟩
    rfl rfl rfl rfl rfl

/-! ## Claims C5, C6, C8: the alignment guide -/

/-- When the landmark list is usable and both the size and the offset
checks pass, `draw_guide` reaches the stability check, whose verdict alone
decides the outcome. -/
theorem drawGuide_stability_branch (w h : ℕ) (hist : List (ℚ × ℚ))
    (lms : List Point) (hne : lms ≠ []) (hoval : ovalWidth w ≠ 0)
    (hsz : widthDiff w h lms ≤ size_tolerance)
    (hx : xOffset w h lms ≤ position_tolerance)
    (hy : yOffset w h lms ≤ position_tolerance) :
    drawGuide w h hist (some lms) =
      if (checkPositionStability w h hist (faceCenterPx w h lms)).1 then
        ((true, "Perfect"), (checkPositionStability w h hist (faceCenterPx w h lms)).2)
      else
        ((false, "Hold still"), (checkPositionStability w h hist (faceCenterPx w h lms)).2) := by
  simp only [drawGuide]
  rw [if_neg (not_or.mpr ⟨hne, hoval⟩), if_neg (not_lt.mpr hsz),
      if_neg (by push_neg; exact ⟨hx, hy⟩)]

/-- A frame that passes the size and offset checks while the rolling window
is not yet full is reported `(false, "Hold still")` and only appends the
face center to the window. -/
theorem drawGuide_pass_not_full (w h : ℕ) (hist : List (ℚ × ℚ))
    (lms : List Point) (hne : lms ≠ []) (hoval : ovalWidth w ≠ 0)
    (hsz : widthDiff w h lms ≤ size_tolerance)
    (hx : xOffset w h lms ≤ position_tolerance)
    (hy : yOffset w h lms ≤ position_tolerance)
    (hlen : hist.length + 1 < history_size) :
    drawGuide w h hist (some lms)
      = ((false, "Hold still"), hist ++ [faceCenterPx w h lms]) := by
  have hpop : ¬ history_size ≤ hist.length := by omega
  have h1 : checkPositionStability w h hist (faceCenterPx w h lms)
      = (false, hist ++ [faceCenterPx w h lms]) := by
    unfold checkPositionStability
    rw [if_neg hpop, if_pos (by simpa using hlen)]
  rw [drawGuide_stability_branch w h hist lms hne hoval hsz hx hy, h1]
  simp

/-- C5 counterexample: a face bounding box exactly 10% wider than the
ideal oval (width `176` px against `oval_width = 160` for a 640-wide
frame), centered in the frame, is *not* classified with the size message —
10% is within the 15% `size_tolerance`, so the frame falls through to the
stability check and is reported `(false, "Hold still")`. -/
theorem C5_counterexample :
    drawGuide 640 480 [] (some [⟨232/640, 230/480⟩, ⟨408/640, 250/480⟩])
      = ((false, "Hold still"), [(320, 240)]) ∧
    faceWidthPx 640 480 [⟨232/640, 230/480⟩, ⟨408/640, 250/480⟩]
      = (11/10) * (ovalWidth 640 : ℚ) ∧
    ("Hold still" : String) ≠ "Move back" := by
  refine ⟨?_, ?_, ?_⟩
  · norm_num [drawGuide, widthDiff, faceWidthPx, faceCenterPx, pixelCoords,
      listMaxQ, listMinQ, ovalWidth, centerX, centerY, xOffset, yOffset,
      size_tolerance, position_tolerance, checkPositionStability,
      history_size, min_def, max_def, List.cons_ne_nil]
  · norm_num [faceWidthPx, pixelCoords, listMaxQ, listMinQ, ovalWidth]
  · decide

/-- C5 (amended): the size check fires only beyond the 15% tolerance — a
face bounding box whose width deviation exceeds `size_tolerance` and is at
least the oval width is classified out of position with "Move back" before
any offset check; at exactly 10% deviation the size check passes. -/
theorem C5_oversized_face_move_back (w h : ℕ) (hist : List (ℚ × ℚ))
    (lms : List Point) (hne : lms ≠ []) (hoval : ovalWidth w ≠ 0)
    (hsz : size_tolerance < widthDiff w h lms)
    (hge : (ovalWidth w : ℚ) ≤ faceWidthPx w h lms) :
    drawGuide w h hist (some lms) = ((false, "Move back"), hist) := by
  simp only [drawGuide]
  rw [if_neg (not_or.mpr ⟨hne, hoval⟩), if_pos hsz, if_neg (not_lt.mpr hge)]

/-- Witness for the amended C5: a centered face 20% wider than the oval. -/
theorem C5_oversized_face_move_back_witness :
    drawGuide 640 480 [] (some [⟨224/640, 230/480⟩, ⟨416/640, 250/480⟩])
      = ((false, "Move back"), []) :=
  C5_oversized_face_move_back 640 480 []
    [⟨224/640, 230/480⟩, ⟨416/640, 250/480⟩]
    (by decide)
    (by decide)
    (by norm_num [size_tolerance, widthDiff, faceWidthPx, pixelCoords,
          listMaxQ, listMinQ, ovalWidth])
    (by norm_num [faceWidthPx, pixelCoords, listMaxQ, listMinQ, ovalWidth])

/-- A concrete frame whose face passes the size and offset checks but whose
inter-eye segment (the third and fourth landmarks, in pixel coordinates)
rises as much vertically as it advances horizontally — a 45° head tilt. -/
def tiltedEyesFrame : List Point :=
  [⟨232/640, 230/480⟩, ⟨408/640, 250/480⟩, ⟨280/640, 200/480⟩, ⟨360/640, 280/480⟩]

/-- C6 counterexample: `draw_guide` performs no rotation check — the
45°-tilted frame (inter-eye pixel segment from `(280, 200)` to
`(360, 280)`: Δy = Δx = 80) passes size and offset and, with a full stable
window, is reported `ALIGNED` (`(true, "Perfect")`), never
"keep head level". -/
theorem C6_counterexample :
    ((280 : ℚ), (200 : ℚ)) ∈ pixelCoords 640 480 tiltedEyesFrame ∧
    ((360 : ℚ), (280 : ℚ)) ∈ pixelCoords 640 480 tiltedEyesFrame ∧
    (280 : ℚ) - 200 = 360 - 280 ∧
    (drawGuide 640 480 (List.replicate 4 ((320 : ℚ), (240 : ℚ)))
        (some tiltedEyesFrame)).1 = (true, "Perfect") := by
  refine ⟨?_, ?_, by norm_num, ?_⟩
  · norm_num [pixelCoords, tiltedEyesFrame]
  · norm_num [pixelCoords, tiltedEyesFrame]
  · norm_num [drawGuide, widthDiff, faceWidthPx, faceCenterPx, pixelCoords,
      listMaxQ, listMinQ, ovalWidth, centerX, centerY, xOffset, yOffset,
      size_tolerance, position_tolerance, checkPositionStability,
      history_size, min_def, max_def, List.cons_ne_nil, List.replicate,
      tiltedEyesFrame]

/-- C6 (amended): the guide has no rotation check at all — any frame that
passes the size and offset checks is decided solely by the stability
window: it is reported either `ALIGNED` (`(true, "Perfect")`) or unstable
(`(false, "Hold still")`), regardless of the inter-eye angle; the message
"keep head level" is never produced. -/
theorem C6_no_rotation_check (w h : ℕ) (hist : List (ℚ × ℚ))
    (lms : List Point) (hne : lms ≠ []) (hoval : ovalWidth w ≠ 0)
    (hsz : widthDiff w h lms ≤ size_tolerance)
    (hx : xOffset w h lms ≤ position_tolerance)
    (hy : yOffset w h lms ≤ position_tolerance) :
    (drawGuide w h hist (some lms)).1 = (true, "Perfect") ∨
    (drawGuide w h hist (some lms)).1 = (false, "Hold still") := by
  rw [drawGuide_stability_branch w h hist lms hne hoval hsz hx hy]
  cases hres : (checkPositionStability w h hist (faceCenterPx w h lms)).1 <;>
    simp [hres]

/-- Witness for the amended C6: the tilted frame from an empty window. -/
theorem C6_no_rotation_check_witness :
    (drawGuide 640 480 [] (some tiltedEyesFrame)).1 = (true, "Perfect") ∨
    (drawGuide 640 480 [] (some tiltedEyesFrame)).1 = (false, "Hold still") :=
  C6_no_rotation_check 640 480 [] tiltedEyesFrame
    (by decide)
    (by decide)
    (by norm_num [size_tolerance, widthDiff, faceWidthPx, pixelCoords,
          listMaxQ, listMinQ, ovalWidth, tiltedEyesFrame])
    (by norm_num [position_tolerance, xOffset, faceCenterPx, pixelCoords,
          listMaxQ, listMinQ, centerX, tiltedEyesFrame])
    (by norm_num [position_tolerance, yOffset, faceCenterPx, pixelCoords,
          listMaxQ, listMinQ, centerY, tiltedEyesFrame])

/-- Feeding frames that pass the size and offset checks while the window
still cannot fill up yields "Hold still" on every frame, growing the
window by one entry per frame. -/
theorem runGuide_hold_still_aux (w h : ℕ) (hoval : ovalWidth w ≠ 0)
    (frames : List (List Point)) :
    ∀ hist : List (ℚ × ℚ),
      hist.length + frames.length < history_size →
      (∀ lms ∈ frames, lms ≠ [] ∧ widthDiff w h lms ≤ size_tolerance ∧
        xOffset w h lms ≤ position_tolerance ∧
        yOffset w h lms ≤ position_tolerance) →
      (runGuide w h hist (frames.map some)).1
          = List.replicate frames.length (false, "Hold still") ∧
      (runGuide w h hist (frames.map some)).2.length
          = hist.length + frames.length := by
  induction frames with
  | nil => intro hist _ _; simp [runGuide]
  | cons f fs ih =>
    intro hist hlen hpass
    obtain ⟨hne, hsz, hx, hy⟩ := hpass f (List.mem_cons_self f fs)
    have hstep := drawGuide_pass_not_full w h hist f hne hoval hsz hx hy
      (by simp at hlen ⊢; omega)
    have hrest := ih (hist ++ [faceCenterPx w h f])
      (by simp at hlen ⊢; omega)
      (fun l hl => hpass l (List.mem_cons_of_mem f hl))
    simp only [List.map_cons, runGuide, hstep]
    refine ⟨?_, ?_⟩
    · simp [hrest.1, List.replicate_succ]
    · simp only [hrest.2]
      simp
      omega

/-- C8: starting from an empty stability window, feeding fewer than
`history_size = 5` frames never yields `ALIGNED`, even when every frame
passes the size and offset checks — each frame is reported
`(false, "Hold still")` while the window is not yet full. -/
theorem C8_window_not_full (w h : ℕ) (frames : List (List Point))
    (hoval : ovalWidth w ≠ 0) (hlen : frames.length < history_size)
    (hpass : ∀ lms ∈ frames, lms ≠ [] ∧ widthDiff w h lms ≤ size_tolerance ∧
      xOffset w h lms ≤ position_tolerance ∧
      yOffset w h lms ≤ position_tolerance) :
    (runGuide w h [] (frames.map some)).1
      = List.replicate frames.length (false, "Hold still") :=
  (runGuide_hold_still_aux w h hoval frames [] (by simpa using hlen) hpass).1

/-- Witness for C8: three perfectly centered, ideally sized frames. -/
theorem C8_window_not_full_witness :
    (runGuide 640 480 []
        ((List.replicate 3 [(⟨240/640, 230/480⟩ : Point), ⟨400/640, 250/480⟩]).map some)).1
      = List.replicate 3 (false, "Hold still") :=
  C8_window_not_full 640 480
    (List.replicate 3 [⟨240/640, 230/480⟩, ⟨400/640, 250/480⟩])
    (by decide)
    (by decide)
    (by
      intro lms hl
      simp only [List.mem_replicate] at hl
      obtain ⟨-, rfl⟩ := hl
      refine ⟨by decide, ?_, ?_, ?_⟩ <;>
        norm_num [size_tolerance, position_tolerance, widthDiff, xOffset,
          yOffset, faceWidthPx, faceCenterPx, pixelCoords, listMaxQ,
          listMinQ, ovalWidth, centerX, centerY])

/-! ## Claim C9: the consecutive-stable-frame counter -/

/-- An aligned face frame increments the stable-frame counter by exactly
one, whatever else the measuring branch does. -/
theorem step_aligned_count (s : AggState) (c : Option PupilMeasurement) :
    (processFrameStep s (.face true c)).stable_frame_count
      = s.stable_frame_count + 1 := by
  cases c <;> simp only [processFrameStep] <;> split_ifs <;> simp_all

/-- A non-aligned face frame resets the stable-frame counter to zero. -/
theorem step_not_aligned_count (s : AggState) (c : Option PupilMeasurement) :
    (processFrameStep s (.face false c)).stable_frame_count = 0 := by
  cases c <;> simp only [processFrameStep] <;> split_ifs <;> simp_all

/-- A run of aligned face frames adds its length to the counter. -/
theorem runAgg_aligned_count (fs : List FrameInput) :
    ∀ s : AggState, (∀ f ∈ fs, ∃ cf, f = FrameInput.face true cf) →
      (runAgg s fs).stable_frame_count = s.stable_frame_count + fs.length := by
  induction fs with
  | nil => intro s _; simp [runAgg]
  | cons f fs ih =>
    intro s hfs
    obtain ⟨cf, rfl⟩ := hfs f (List.mem_cons_self f fs)
    have h1 : runAgg s (FrameInput.face true cf :: fs)
        = runAgg (processFrameStep s (.face true cf)) fs := rfl
    rw [h1, ih _ (fun g hg => hfs g (List.mem_cons_of_mem _ hg)),
      step_aligned_count]
    simp
    omega

/-- C9: per frame, the counter increments by one on an aligned frame and
resets to zero on a non-aligned or no-face frame; hence after a single
non-aligned frame, a following all-aligned run reaches a count equal to
its own length — counting restarts from zero. -/
theorem C9_counter_increment_reset (s : AggState)
    (c c' : Option PupilMeasurement) (fs : List FrameInput)
    (hfs : ∀ f ∈ fs, ∃ cf, f = FrameInput.face true cf) :
    (processFrameStep s (.face true c)).stable_frame_count
        = s.stable_frame_count + 1 ∧
    (processFrameStep s (.face false c')).stable_frame_count = 0 ∧
    (processFrameStep s .noFace).stable_frame_count = 0 ∧
    (runAgg (processFrameStep s (.face false c')) fs).stable_frame_count
        = fs.length := by
  refine ⟨step_aligned_count s c, step_not_aligned_count s c', rfl, ?_⟩
  rw [runAgg_aligned_count fs _ hfs, step_not_aligned_count]
  omega

/-- Witness for C9: a mid-run non-aligned frame followed by two aligned
frames leaves the counter at two, not at its pre-reset value plus two. -/
theorem C9_counter_increment_reset_witness :
    (processFrameStep ⟨7, false, [], none⟩ (.face true none)).stable_frame_count
        = (⟨7, false, [], none⟩ : AggState).stable_frame_count + 1 ∧
    (processFrameStep ⟨7, false, [], none⟩ (.face false none)).stable_frame_count = 0 ∧
    (processFrameStep ⟨7, false, [], none⟩ .noFace).stable_frame_count = 0 ∧
    (runAgg (processFrameStep ⟨7, false, [], none⟩ (.face false none))
        [.face true none, .face true none]).stable_frame_count = 2 :=
  C9_counter_increment_reset ⟨7, false, [], none⟩ none none
    [.face true none, .face true none]
    (by
      intro f hf
      simp only [List.mem_cons, List.mem_singleton] at hf
      rcases hf with rfl | rfl | hf
      · exact ⟨none, rfl⟩
      · exact ⟨none, rfl⟩
      · exact absurd hf (List.not_mem_nil f))

/-! ## Claim C10: face width is non-negative; zero width yields no result -/

/-- C10: any face width `_calculate_face_width` produces is non-negative
(it is an absolute difference), and when it is exactly zero the
division-by-zero error inside `_pixel_to_mm` is caught by
`process_landmarks`, which returns `None` — never a propagated error or an
infinite/NaN `pd_mm`. -/
theorem C10_face_width_safe (sqrtFn : ℚ → ℚ) (lms : Landmarks) (fw : ℚ)
    (hfw : calculateFaceWidth lms = some fw) :
    0 ≤ fw ∧ (fw = 0 → processLandmarks sqrtFn lms = none) := by
  constructor
  · unfold calculateFaceWidth at hfw
    cases h127 : lookupLm lms "127" <;> cases h356 : lookupLm lms "356" <;>
      rw [h127, h356] at hfw <;> simp at hfw
    rw [← hfw]
    exact abs_nonneg _
  · intro h0
    rw [h0] at hfw
    cases hL : calculateIrisCenter lms LEFT_IRIS <;>
      cases hR : calculateIrisCenter lms RIGHT_IRIS <;>
      simp [processLandmarks, hL, hR, hfw, pixelToMm]

/-- A landmark set with all iris landmarks present but coincident temples:
face width is exactly zero. -/
def zeroWidthFace : Landmarks :=
  [("474", ⟨45/100, 1/2⟩), ("475", ⟨46/100, 1/2⟩), ("476", ⟨47/100, 1/2⟩),
   ("477", ⟨48/100, 1/2⟩), ("469", ⟨55/100, 1/2⟩), ("470", ⟨56/100, 1/2⟩),
   ("471", ⟨57/100, 1/2⟩), ("472", ⟨58/100, 1/2⟩),
   ("127", ⟨3/10, 1/2⟩), ("356", ⟨3/10, 1/2⟩)]

/-- Witness for C10: on the coincident-temples landmark set, the computed
width is `0` (hence non-negative) and `process_landmarks` returns `None`. -/
theorem C10_face_width_safe_witness :
    0 ≤ (0 : ℚ) ∧ ((0 : ℚ) = 0 → processLandmarks (fun q => q) zeroWidthFace = none) :=
  C10_face_width_safe (fun q => q) zeroWidthFace 0
    (by
      have h127 : lookupLm zeroWidthFace "127" = some ⟨3/10, 1/2⟩ := rfl
      have h356 : lookupLm zeroWidthFace "356" = some ⟨3/10, 1/2⟩ := rfl
      unfold calculateFaceWidth
      rw [h127, h356]
      norm_num)

/-! ## Claim C2: one aggregation cycle of the measurement state machine -/

/-- Folding a frame sequence splits over list append. -/
theorem runAgg_append (s : AggState) (fs gs : List FrameInput) :
    runAgg s (fs ++ gs) = runAgg (runAgg s fs) gs :=
  List.foldl_append _ _ _ _

/-- Feeding `k ≤ 30` aligned, candidate-less frames from the initial state
counts to `k`, entering measuring mode exactly at the threshold. -/
theorem runAgg_replicate_aligned (k : ℕ) (hk : k ≤ 30) :
    runAgg initAggState (List.replicate k (FrameInput.face true none))
      = ⟨k, decide (30 ≤ k), [], none⟩ := by
  induction k with
  | zero => rfl
  | succ n ih =>
    rw [List.replicate_succ', runAgg_append, ih (by omega)]
    have hn : ¬ (30 ≤ n) := by omega
    by_cases h30 : 30 ≤ n + 1 <;>
      simp [runAgg, processFrameStep, STABILITY_THRESHOLD, hn, h30]

/-- One measuring-mode frame with a valid candidate, buffer still short of
`MEASUREMENT_FRAMES` after the append: the candidate is buffered, nothing
is emitted. -/
theorem step_measuring_not_full (c : ℕ) (buf : List PupilMeasurement)
    (m : PupilMeasurement) (hlen : buf.length + 1 < 10) :
    processFrameStep ⟨c, true, buf, none⟩ (FrameInput.face true (some m))
      = ⟨c + 1, true, buf ++ [m], none⟩ := by
  simp [processFrameStep, STABILITY_THRESHOLD, MEASUREMENT_FRAMES]
  omega

/-- While measuring, a run of valid candidates short of filling the buffer
is appended in order, with no emission. -/
theorem runAgg_measuring_partial (ms : List PupilMeasurement) :
    ∀ (c : ℕ) (buf : List PupilMeasurement),
      buf.length + ms.length < 10 →
      runAgg ⟨c, true, buf, none⟩
          (ms.map fun m => FrameInput.face true (some m))
        = ⟨c + ms.length, true, buf ++ ms, none⟩ := by
  induction ms with
  | nil => intro c buf _; simp [runAgg]
  | cons m ms ih =>
    intro c buf hlen
    simp only [List.map_cons]
    have hcons : runAgg ⟨c, true, buf, none⟩
        (FrameInput.face true (some m) :: ms.map fun x => FrameInput.face true (some x))
        = runAgg (processFrameStep ⟨c, true, buf, none⟩ (FrameInput.face true (some m)))
            (ms.map fun x => FrameInput.face true (some x)) := rfl
    simp only [List.length_cons] at hlen
    rw [hcons, step_measuring_not_full c buf m (by omega),
      ih (c + 1) (buf ++ [m]) (by simp; omega)]
    simp
    omega

/-- The frame that fills the buffer to `MEASUREMENT_FRAMES` emits the final
measurement: averaged `pd_mm` and `confidence`, pupils and `pd_pixels` from
the just-appended (last) candidate; measuring mode ends. -/
theorem step_measuring_full (c : ℕ) (buf : List PupilMeasurement)
    (m : PupilMeasurement) (hlen : buf.length + 1 = 10) :
    processFrameStep ⟨c, true, buf, none⟩ (FrameInput.face true (some m))
      = ⟨c + 1, false, buf ++ [m],
         some ⟨m.left_pupil, m.right_pupil, m.pd_pixels,
           ((buf ++ [m]).map PupilMeasurement.pd_mm).sum / 10,
           ((buf ++ [m]).map PupilMeasurement.confidence).sum / 10⟩⟩ := by
  simp [processFrameStep, STABILITY_THRESHOLD, MEASUREMENT_FRAMES, hlen]

/-- C2: from the initial state, 30 aligned frames followed by 10 valid
candidate frames produce no final measurement at any of the 39 proper
prefixes and exactly one final measurement after frame 40, whose `pd_mm`
and `confidence` are the arithmetic means over the ten buffered candidates
and whose `left_pupil`/`right_pupil`/`pd_pixels` come from the last
buffered candidate. -/
theorem C2_aggregator (m0 m1 m2 m3 m4 m5 m6 m7 m8 m9 : PupilMeasurement) :
    (∀ k < 40,
      (runAgg initAggState
        ((List.replicate 30 (FrameInput.face true none) ++
          [m0, m1, m2, m3, m4, m5, m6, m7, m8, m9].map
            (fun m => FrameInput.face true (some m))).take k)).last_measurement
        = none) ∧
    (runAgg initAggState
        (List.replicate 30 (FrameInput.face true none) ++
          [m0, m1, m2, m3, m4, m5, m6, m7, m8, m9].map
            (fun m => FrameInput.face true (some m)))).last_measurement
      = some
        { left_pupil := m9.left_pupil
          right_pupil := m9.right_pupil
          pd_pixels := m9.pd_pixels
          pd_mm := ([m0, m1, m2, m3, m4, m5, m6, m7, m8, m9].map
              PupilMeasurement.pd_mm).sum / 10
          confidence := ([m0, m1, m2, m3, m4, m5, m6, m7, m8, m9].map
              PupilMeasurement.confidence).sum / 10 } := by
  constructor
  · intro k hk
    rw [List.take_append_eq_append_take]
    by_cases h30 : k ≤ 30
    · have h0 : k - (List.replicate 30 (FrameInput.face true none)).length = 0 := by
        simp
        omega
      rw [h0, List.take_zero, List.append_nil, List.take_replicate,
        min_eq_left h30, runAgg_replicate_aligned k h30]
    · push_neg at h30
      have htake : List.take k (List.replicate 30 (FrameInput.face true none))
          = List.replicate 30 (FrameInput.face true none) := by
        apply List.take_of_length_le
        simp
        omega
      rw [htake, runAgg_append, runAgg_replicate_aligned 30 le_rfl]
      have hd : (decide (30 ≤ 30)) = true := rfl
      rw [hd]
      have hlen : (List.replicate 30 (FrameInput.face true none)).length = 30 := by
        simp
      rw [hlen, ← List.map_take,
        runAgg_measuring_partial
          ([m0, m1, m2, m3, m4, m5, m6, m7, m8, m9].take (k - 30)) 30 []
          (by simp [List.length_take]; omega)]
  · rw [runAgg_append, runAgg_replicate_aligned 30 le_rfl]
    have hd : (decide (30 ≤ 30)) = true := rfl
    rw [hd]
    rw [show [m0, m1, m2, m3, m4, m5, m6, m7, m8, m9]
        = [m0, m1, m2, m3, m4, m5, m6, m7, m8] ++ [m9] from rfl,
      List.map_append, runAgg_append,
      runAgg_measuring_partial [m0, m1, m2, m3, m4, m5, m6, m7, m8] 30 []
        (by simp)]
    have hsingle : ∀ (s : AggState) (f : FrameInput),
        runAgg s [f] = processFrameStep s f := fun _ _ => rfl
    simp only [List.map_cons, List.map_nil, List.nil_append, List.length_cons,
      List.length_nil, hsingle]
    rw [step_measuring_full _ _ m9 (by simp)]

/-- A fixed concrete candidate measurement for the C2 witness. -/
def constMeas : PupilMeasurement := ⟨⟨1, 2⟩, ⟨3, 4⟩, 5, 6, 7⟩

/-- Witness for C2 at ten copies of a concrete candidate, checking the
39-frame prefix and the full 40-frame run. -/
theorem C2_aggregator_witness :
    (runAgg initAggState
        ((List.replicate 30 (FrameInput.face true none) ++
          [constMeas, constMeas, constMeas, constMeas, constMeas, constMeas,
           constMeas, constMeas, constMeas, constMeas].map
            (fun m => FrameInput.face true (some m))).take 39)).last_measurement
      = none ∧
    (runAgg initAggState
        (List.replicate 30 (FrameInput.face true none) ++
          [constMeas, constMeas, constMeas, constMeas, constMeas, constMeas,
           constMeas, constMeas, constMeas, constMeas].map
            (fun m => FrameInput.face true (some m)))).last_measurement
      = some
        { left_pupil := constMeas.left_pupil
          right_pupil := constMeas.right_pupil
          pd_pixels := constMeas.pd_pixels
          pd_mm := ([constMeas, constMeas, constMeas, constMeas, constMeas,
              constMeas, constMeas, constMeas, constMeas, constMeas].map
              PupilMeasurement.pd_mm).sum / 10
          confidence := ([constMeas, constMeas, constMeas, constMeas,
              constMeas, constMeas, constMeas, constMeas, constMeas,
              constMeas].map PupilMeasurement.confidence).sum / 10 } :=
  ⟨(C2_aggregator constMeas constMeas constMeas constMeas constMeas constMeas
      constMeas constMeas constMeas constMeas).1 39 (by norm_num),
   (C2_aggregator constMeas constMeas constMeas constMeas constMeas constMeas
      constMeas constMeas constMeas constMeas).2⟩

end PD
